import Mathlib

/-!
A shallow embedding of `internal/engine/buildcontroller.go`: the build
controller's admission control (`needsBuild`), the build-state assembly
algorithm (`buildStateSet`), target resolution (`buildTargets`), validation
gating (`buildAndDeploy`), the dispatch protocol (`OnChange`) and the
summary log line (`logBuildEntry`).  Machine integers are modelled as
`Nat`/`Int`; Go maps as association lists (with a no-duplicate-keys
invariant where Go guarantees it); external collaborators (the build
engine, the selection oracle, running-container discovery) are passed as
explicit function parameters.
-/

/-- The type tag carried by a target identity (`model.TargetType`).
Modelled from the spec: the `model` package is not part of the sources
under review; variants follow the spec's list {Image, K8s, DockerCompose,
Local}.  `localTgt` stands for `TargetTypeLocal` (`local` is reserved). -/
inductive TargetType where
  | image
  | k8s
  | dockerCompose
  | localTgt
deriving DecidableEq, Repr

/-- A target identity (`model.TargetID`): a type tag plus a name. -/
structure TargetID where
  type : TargetType
  name : String
deriving DecidableEq, Repr

/-- Modelled from the spec: `model.ImageTarget`, reduced to the data this
core observes — a stable name for its identity and the result of
`Validate` (`none` = valid, `some e` = the validation error message). -/
structure ImageTarget where
  name : String
  validateErr : Option String
deriving DecidableEq, Repr

/-- Modelled from the spec: `model.DockerComposeTarget`, reduced to the
data this core observes. -/
structure DockerComposeTarget where
  name : String
  validateErr : Option String
deriving DecidableEq, Repr

/-- Modelled from the spec: `model.K8sTarget`, reduced to the data this
core observes. -/
structure K8sTarget where
  name : String
  validateErr : Option String
deriving DecidableEq, Repr

/-- Modelled from the spec: `model.LocalTarget`, reduced to the data this
core observes. -/
structure LocalTarget where
  name : String
  validateErr : Option String
deriving DecidableEq, Repr

/-- Modelled from the spec: the polymorphic `model.TargetSpec` interface,
a tagged union over the four target variants. -/
inductive TargetSpec where
  | image (t : ImageTarget)
  | dc (t : DockerComposeTarget)
  | k8s (t : K8sTarget)
  | localTgt (t : LocalTarget)
deriving DecidableEq, Repr

/-- `spec.ID()`: the identity of a target spec; the type tag is determined
by the variant, as in the `model` package. -/
def TargetSpec.id : TargetSpec → TargetID
  | .image t => ⟨TargetType.image, t.name⟩
  | .dc t => ⟨TargetType.dockerCompose, t.name⟩
  | .k8s t => ⟨TargetType.k8s, t.name⟩
  | .localTgt t => ⟨TargetType.localTgt, t.name⟩

/-- `target.Validate()`: `none` means the spec is valid, `some e` carries
the validation error. -/
def TargetSpec.Validate : TargetSpec → Option String
  | .image t => t.validateErr
  | .dc t => t.validateErr
  | .k8s t => t.validateErr
  | .localTgt t => t.validateErr

/-- Modelled from the spec: a manifest's single deploy target, a
discriminated choice over {DockerCompose, Kubernetes, Local}; `noneT`
models a manifest with no deploy target set (a nil `deployTarget` in the
`model` package, for which all of `IsDC`/`IsK8s`/`IsLocal` are false). -/
inductive DeployTarget where
  | dc (t : DockerComposeTarget)
  | k8s (t : K8sTarget)
  | localTgt (t : LocalTarget)
  | noneT
deriving DecidableEq, Repr

/-- Modelled from the spec: `model.Manifest` — an identity plus image
targets and one deploy-target choice. -/
structure Manifest where
  name : String
  imageTargets : List ImageTarget
  deployTarget : DeployTarget
deriving DecidableEq, Repr

/-- `manifest.IsDC()`. -/
def Manifest.IsDC (m : Manifest) : Bool :=
  match m.deployTarget with
  | .dc _ => true
  | _ => false

/-- `manifest.IsK8s()`. -/
def Manifest.IsK8s (m : Manifest) : Bool :=
  match m.deployTarget with
  | .k8s _ => true
  | _ => false

/-- `manifest.IsLocal()`. -/
def Manifest.IsLocal (m : Manifest) : Bool :=
  match m.deployTarget with
  | .localTgt _ => true
  | _ => false

/-- `manifest.DockerComposeTarget()`: the deploy target when it is a
DockerCompose target (only consulted under an `IsDC` guard). -/
def Manifest.dockerComposeTarget (m : Manifest) : DockerComposeTarget :=
  match m.deployTarget with
  | .dc t => t
  | _ => ⟨"", none⟩

/-- `manifest.K8sTarget()`: the deploy target when it is a Kubernetes
target (only consulted under an `IsK8s` guard). -/
def Manifest.k8sTarget (m : Manifest) : K8sTarget :=
  match m.deployTarget with
  | .k8s t => t
  | _ => ⟨"", none⟩

/-- `manifest.LocalTarget()`: the deploy target when it is a Local target
(only consulted under an `IsLocal` guard). -/
def Manifest.localTarget (m : Manifest) : LocalTarget :=
  match m.deployTarget with
  | .localTgt t => t
  | _ => ⟨"", none⟩

/-- A Go map `file path → change timestamp`: an association list whose
keys are unique, as Go map keys are. -/
abbrev FileChangeMap := { l : List (String × Nat) // (l.map Prod.fst).Nodup }

/-- Modelled from the spec: `store.BuildStatus` — per-target pending file
changes (path → timestamp) and the last successful build result. -/
structure BuildStatus where
  pendingFileChanges : FileChangeMap
  lastSuccessfulResult : Option String
deriving DecidableEq

/-- The zero `BuildStatus` a Go map lookup miss yields. -/
def emptyBuildStatus : BuildStatus := ⟨⟨[], List.nodup_nil⟩, none⟩

/-- Modelled from the spec: the slice of `store.ManifestState` this core
reads — first-build flag, last completed build's start time (`none` when
`LastBuild().Empty()`), the crash flag, config files that caused the
change, and per-target build statuses. -/
structure ManifestState where
  startedFirstBuild : Bool
  lastBuildStartTime : Option Nat
  needsRebuildFromCrash : Bool
  configFilesThatCausedChange : List String
  buildStatuses : List (TargetID × BuildStatus)
deriving DecidableEq

/-- `ms.BuildStatus(id)`: map lookup with the zero value on a miss. -/
def ManifestState.buildStatus (ms : ManifestState) (id : TargetID) : BuildStatus :=
  match ms.buildStatuses.find? (fun p => decide (p.1 = id)) with
  | some p => p.2
  | none => emptyBuildStatus

/-- A running container, reduced to an opaque identifier. -/
abbrev Container := String

/-- Per-target build input (`store.BuildState`): last successful result,
sorted changed files, optionally running containers or the error met
while discovering them, and the force-update flag. -/
structure BuildState where
  lastSuccessfulResult : Option String
  filesChanged : List String
  runningContainers : List Container
  runningContainerError : Option String
  needsForceUpdate : Bool
deriving DecidableEq, Repr

/-- `store.NewBuildState(result, filesChanged)`. -/
def NewBuildState (result : Option String) (filesChanged : List String) : BuildState :=
  { lastSuccessfulResult := result
    filesChanged := filesChanged
    runningContainers := []
    runningContainerError := none
    needsForceUpdate := false }

/-- `BuildState.WithRunningContainers`. -/
def BuildState.WithRunningContainers (b : BuildState) (cs : List Container) : BuildState :=
  { b with runningContainers := cs }

/-- `BuildState.WithRunningContainerError`. -/
def BuildState.WithRunningContainerError (b : BuildState) (e : String) : BuildState :=
  { b with runningContainerError := some e }

/-- `BuildState.WithNeedsForceUpdate`. -/
def BuildState.WithNeedsForceUpdate (b : BuildState) (v : Bool) : BuildState :=
  { b with needsForceUpdate := v }

/-- `store.BuildStateSet`: a Go map from target identity to build state,
modelled as an association list mutated only through `insert`. -/
abbrev BuildStateSet := List (TargetID × BuildState)

/-- Go map assignment `set[id] = b`: replace the binding when the key is
present, append it otherwise. -/
def BuildStateSet.insert (s : BuildStateSet) (id : TargetID) (b : BuildState) : BuildStateSet :=
  if s.any (fun p => decide (p.1 = id)) then
    s.map (fun p => if p.1 = id then (id, b) else p)
  else s ++ [(id, b)]

/-- `sort.Strings`: sorting is modelled by insertion sort under the
lexicographic order on strings (any comparison sort yields the same
list for a total order). -/
def sortStrings (xs : List String) : List String :=
  List.insertionSort (fun a b => a ≤ b) xs

/-- Modelled from the spec: `store.BuildStateSet.FilesChanged()` (store
package, not among the sources under review) aggregates the changed files
of every build state in the set, deduplicated and sorted. -/
def BuildStateSet.FilesChanged (s : BuildStateSet) : List String :=
  sortStrings ((s.map (fun p => p.2.filesChanged)).flatten.dedup)

/-- The skip test of the assembly loop, inverted: the Go loop does
`if id.Type != Image && id.Type != DockerCompose && id.Type != Local
{ continue }`, so a spec is processed exactly when its type is one of
the three. -/
def targetEligible (id : TargetID) : Bool :=
  decide (id.type = TargetType.image) ||
    decide (id.type = TargetType.dockerCompose) ||
    decide (id.type = TargetType.localTgt)

/-- The per-file test of the assembly loop:
`ms.LastBuild().Empty() || ts.After(ms.LastBuild().StartTime)`. -/
def fileSeenSinceLastBuild (ms : ManifestState) (ts : Nat) : Bool :=
  match ms.lastBuildStartTime with
  | none => true
  | some startTime => decide (startTime < ts)

/-- Whether processing one spec flips `anyFilesChangedSinceLastBuild`:
some pending change of the target passes `fileSeenSinceLastBuild`. -/
def targetSawChange (ms : ManifestState) (spec : TargetSpec) : Bool :=
  (ms.buildStatus spec.id).pendingFileChanges.val.any
    (fun p => fileSeenSinceLastBuild ms p.2)

/-- The container-attachment step of the assembly loop: skipped entirely
when the manifest is crash-flagged; otherwise, for an `ImageTarget` spec,
a Kubernetes manifest attaches the discovered containers (or records the
discovery error) and a DockerCompose manifest attaches the compose
runtime's containers.  The two discovery collaborators
(`store.RunningContainersForTargetForOnePod`,
`store.RunningContainersForDC`) are passed in as functions. -/
def attachRunningContainers
    (k8sDiscovery : ImageTarget → ManifestState → Except String (List Container))
    (dcDiscovery : ManifestState → List Container)
    (manifest : Manifest) (ms : ManifestState)
    (spec : TargetSpec) (bs : BuildState) : BuildState :=
  if !ms.needsRebuildFromCrash then
    match spec with
    | TargetSpec.image iTarget =>
      let bs1 :=
        if manifest.IsK8s then
          match k8sDiscovery iTarget ms with
          | Except.error e => bs.WithRunningContainerError e
          | Except.ok cInfos => bs.WithRunningContainers cInfos
        else bs
      if manifest.IsDC then bs1.WithRunningContainers (dcDiscovery ms) else bs1
    | _ => bs
  else bs

/-- The build state one eligible spec contributes: collect and sort the
pending file paths, seed the state from the last successful result, then
attach running containers. -/
def specBuildState
    (k8sDiscovery : ImageTarget → ManifestState → Except String (List Container))
    (dcDiscovery : ManifestState → List Container)
    (manifest : Manifest) (ms : ManifestState) (spec : TargetSpec) : BuildState :=
  let status := ms.buildStatus spec.id
  let filesChanged := sortStrings (status.pendingFileChanges.val.map Prod.fst)
  attachRunningContainers k8sDiscovery dcDiscovery manifest ms spec
    (NewBuildState status.lastSuccessfulResult filesChanged)

/-- The main loop of `buildStateSet`, threading the accumulated set and
the `anyFilesChangedSinceLastBuild` flag through the spec list. -/
def buildStateSetLoop
    (k8sDiscovery : ImageTarget → ManifestState → Except String (List Container))
    (dcDiscovery : ManifestState → List Container)
    (manifest : Manifest) (ms : ManifestState) :
    List TargetSpec → BuildStateSet → Bool → BuildStateSet × Bool
  | [], result, anyChanged => (result, anyChanged)
  | spec :: rest, result, anyChanged =>
    if targetEligible spec.id then
      buildStateSetLoop k8sDiscovery dcDiscovery manifest ms rest
        (BuildStateSet.insert result spec.id
          (specBuildState k8sDiscovery dcDiscovery manifest ms spec))
        (anyChanged || targetSawChange ms spec)
    else
      buildStateSetLoop k8sDiscovery dcDiscovery manifest ms rest result anyChanged

/-- `buildStateSet(ctx, manifest, specs, ms)` (the `ctx` argument carries
no data this model observes): run the loop, then, when the manifest is not
crash-flagged and no file changed since the last build, flag every build
state in the set for a force update. -/
def buildStateSet
    (k8sDiscovery : ImageTarget → ManifestState → Except String (List Container))
    (dcDiscovery : ManifestState → List Container)
    (manifest : Manifest) (specs : List TargetSpec) (ms : ManifestState) : BuildStateSet :=
  let res := buildStateSetLoop k8sDiscovery dcDiscovery manifest ms specs [] false
  if !ms.needsRebuildFromCrash && !res.2 then
    res.1.map (fun p => (p.1, p.2.WithNeedsForceUpdate true))
  else res.1

/-- `buildTargets(manifest)`: all image targets, then the single deploy
target chosen by the `IsDC` / `IsK8s` / `IsLocal` chain. -/
def buildTargets (manifest : Manifest) : List TargetSpec :=
  let result := manifest.imageTargets.map TargetSpec.image
  if manifest.IsDC then
    result ++ [TargetSpec.dc manifest.dockerComposeTarget]
  else if manifest.IsK8s then
    result ++ [TargetSpec.k8s manifest.k8sTarget]
  else if manifest.IsLocal then
    result ++ [TargetSpec.localTgt manifest.localTarget]
  else
    result

/-- `SpanIDForBuildLog(buildCount)`. -/
def SpanIDForBuildLog (buildCount : Nat) : String :=
  "build:" ++ toString buildCount

/-- The controller's admitted-build description (`buildEntry`). -/
structure buildEntry where
  name : String
  targets : List TargetSpec
  buildStateSet : BuildStateSet
  filesChanged : List String
  buildReason : String
  firstBuild : Bool
  spanID : String
deriving DecidableEq

/-- The Go zero value `buildEntry{}` returned on declined admission. -/
def buildEntry.empty : buildEntry :=
  { name := ""
    targets := []
    buildStateSet := []
    filesChanged := []
    buildReason := ""
    firstBuild := false
    spanID := "" }

/-- Modelled from the spec: the candidate returned by the selection
oracle (`buildcontrol.NextTargetToBuild`) — a manifest, its state, and
the oracle-supplied build reason (`mt.NextBuildReason()`), rendered as a
string as the log line does. -/
structure ManifestTarget where
  manifest : Manifest
  state : ManifestState
  nextBuildReason : String
deriving DecidableEq

/-- Modelled from the spec: the slice of the shared store state this core
reads — the externally visible started-build count and the build-slot
contract `AvailableBuildSlots()`. -/
structure EngineState where
  startedBuildCount : Nat
  availableBuildSlots : Int
deriving DecidableEq

/-- The controller (`BuildController`): its private started-build counter
and the testing-disable flag.  The build-engine capability it holds is
passed to `OnChange` as a function instead. -/
structure BuildController where
  buildsStartedCount : Nat
  disabledForTesting : Bool
deriving DecidableEq, Repr

/-- `needsBuild(ctx, st)`: admission control.  Reads the shared state
snapshot, applies the synchronization guard, the slot guard and the
oracle guard; on admission increments the private counter and packages
the build entry.  Returns the updated controller together with the Go
pair `(buildEntry, bool)`. -/
def needsBuild
    (oracle : EngineState → Option ManifestTarget)
    (k8sDiscovery : ImageTarget → ManifestState → Except String (List Container))
    (dcDiscovery : ManifestState → List Container)
    (c : BuildController) (state : EngineState) :
    BuildController × buildEntry × Bool :=
  if c.buildsStartedCount ≠ state.startedBuildCount then
    (c, buildEntry.empty, false)
  else if state.availableBuildSlots < 1 then
    (c, buildEntry.empty, false)
  else
    match oracle state with
    | none => (c, buildEntry.empty, false)
    | some mt =>
      let c1 : BuildController := { c with buildsStartedCount := c.buildsStartedCount + 1 }
      let ms := mt.state
      let manifest := mt.manifest
      let firstBuild := !ms.startedFirstBuild
      let buildReason := mt.nextBuildReason
      let targets := buildTargets manifest
      let bss := buildStateSet k8sDiscovery dcDiscovery manifest targets ms
      (c1,
        { name := manifest.name
          targets := targets
          firstBuild := firstBuild
          buildReason := buildReason
          buildStateSet := bss
          filesChanged := ms.configFilesThatCausedChange ++ bss.FilesChanged
          spanID := SpanIDForBuildLog c1.buildsStartedCount },
        true)

/-- The validation loop of `buildAndDeploy`: the error of the first
target whose `Validate` fails, `none` when all pass. -/
def firstValidationError : List TargetSpec → Option String
  | [] => none
  | t :: ts =>
    match t.Validate with
    | some e => some e
    | none => firstValidationError ts

/-- `store.BuildResultSet`, reduced to a map from target identity to an
opaque result token. -/
abbrev BuildResultSet := List (TargetID × String)

/-- `c.buildAndDeploy(ctx, st, entry)`: validate every target, aborting
with an empty result set and the first error; otherwise hand the targets
and build-state set to the build-engine capability. -/
def buildAndDeploy
    (engine : List TargetSpec → BuildStateSet → BuildResultSet × Option String)
    (entry : buildEntry) : BuildResultSet × Option String :=
  match firstValidationError entry.targets with
  | some err => ([], some err)
  | none => engine entry.targets entry.buildStateSet

/-- The actions `OnChange` dispatches into the store.  `buildStarted`
omits the wall-clock `StartTime` field (real time is outside the model);
log actions of the bridging writer are outside the dispatched-action
claims and are not recorded here. -/
inductive StoreAction where
  | buildStarted (manifestName : String) (filesChanged : List String)
      (reason : String) (spanID : String)
  | buildComplete (manifestName : String) (spanID : String)
      (result : BuildResultSet) (error : Option String)
deriving DecidableEq

/-- `c.OnChange(ctx, st)`: no-op when disabled or when admission
declines; otherwise dispatch "build started", run the build task
(validation then the engine), and dispatch "build completed" with the
result or error.  The asynchronous task is modelled synchronously; the
ordered action list it returns is what the store observes. -/
def OnChange
    (engine : List TargetSpec → BuildStateSet → BuildResultSet × Option String)
    (oracle : EngineState → Option ManifestTarget)
    (k8sDiscovery : ImageTarget → ManifestState → Except String (List Container))
    (dcDiscovery : ManifestState → List Container)
    (c : BuildController) (state : EngineState) :
    BuildController × List StoreAction :=
  if c.disabledForTesting then (c, [])
  else
    match needsBuild oracle k8sDiscovery dcDiscovery c state with
    | (c1, _, false) => (c1, [])
    | (c1, entry, true) =>
      let r := buildAndDeploy engine entry
      (c1,
        [StoreAction.buildStarted entry.name entry.filesChanged entry.buildReason entry.spanID,
         StoreAction.buildComplete entry.name entry.spanID r.1 r.2])

/-- `c.logBuildEntry(ctx, entry)`: the single summary line written before
the build runs.  `formatFileChangeList` stands for
`ospath.FormatFileChangeList` (ospath package, not among the sources
under review). -/
def logBuildEntry (formatFileChangeList : List String → String)
    (entry : buildEntry) : String :=
  let delimiter := "•"
  let changedFiles := entry.filesChanged
  if entry.firstBuild then
    "Initial Build " ++ delimiter ++ " " ++ entry.name
  else
    if changedFiles.length > 0 then
      let t := if changedFiles.length > 1 then "Files" else "File"
      toString changedFiles.length ++ " " ++ t ++ " Changed: " ++
        formatFileChangeList changedFiles ++ " " ++ delimiter ++ " " ++ entry.name
    else
      entry.buildReason ++ " " ++ delimiter ++ " " ++ entry.name

/-- Whether any spec the assembly loop processes flips the
`anyFilesChangedSinceLastBuild` flag. -/
def anySpecSawChange (ms : ManifestState) (specs : List TargetSpec) : Bool :=
  specs.any (fun s => targetEligible s.id && targetSawChange ms s)

/-- The per-target "saw a change" condition in the words of the claim
under test: some pending-change timestamp is strictly after the last
build's start time, or no successful build has ever completed (the latter
read as a standalone condition, independent of any pending change). -/
def claimTargetSawChange (ms : ManifestState) (spec : TargetSpec) : Bool :=
  (ms.buildStatus spec.id).pendingFileChanges.val.any
      (fun p =>
        match ms.lastBuildStartTime with
        | none => false
        | some startTime => decide (startTime < p.2)) ||
    ms.lastBuildStartTime.isNone

/-- `claimTargetSawChange` lifted over the spec list, restricted to the
specs the assembly loop processes. -/
def anySpecClaimSawChange (ms : ManifestState) (specs : List TargetSpec) : Bool :=
  specs.any (fun s => targetEligible s.id && claimTargetSawChange ms s)

/-- Some build state in the set carries the force-update flag. -/
def BuildStateSet.anyForce (s : BuildStateSet) : Bool :=
  s.any (fun p => p.2.needsForceUpdate)

/-- Every build state in the set carries force-update flag `b`. -/
def BuildStateSet.forceFlagsAll (s : BuildStateSet) (b : Bool) : Bool :=
  s.all (fun p => p.2.needsForceUpdate == b)

/-- Every build state in the set is free of running-container data, of a
running-container error, and of the force-update flag. -/
def BuildStateSet.noContainerData (s : BuildStateSet) : Bool :=
  s.all (fun p =>
    p.2.runningContainers.isEmpty && p.2.runningContainerError.isNone &&
      !p.2.needsForceUpdate)

/-- A discovery collaborator reporting no running containers. -/
def k8s0 : ImageTarget → ManifestState → Except String (List Container) :=
  fun _ _ => Except.ok []

/-- A compose-runtime collaborator reporting no running containers. -/
def dc0 : ManifestState → List Container := fun _ => []

/-- A discovery collaborator reporting one running container. -/
def k8sOne : ImageTarget → ManifestState → Except String (List Container) :=
  fun _ _ => Except.ok ["c1"]

/-- A compose-runtime collaborator reporting one running container. -/
def dcOne : ManifestState → List Container := fun _ => ["c1"]

/-- A build engine that succeeds with an empty result set. -/
def engine0 : List TargetSpec → BuildStateSet → BuildResultSet × Option String :=
  fun _ _ => ([], none)

/-- A concrete file-change-list formatter. -/
def fmtComma : List String → String := fun l => String.intercalate ", " l

/-- A manifest with no targets at all. -/
def mW : Manifest := ⟨"myapp", [], DeployTarget.noneT⟩

/-- A never-built, un-crashed manifest state with no statuses. -/
def msW : ManifestState := ⟨false, none, false, [], []⟩

/-- An oracle candidate pairing `mW` with `msW`. -/
def mtW : ManifestTarget := ⟨mW, msW, "manual"⟩

/-- An oracle that always offers `mtW`. -/
def oracleW : EngineState → Option ManifestTarget := fun _ => some mtW

/-- A fresh controller. -/
def cW : BuildController := ⟨0, false⟩

/-- A store state in sync with `cW` and with one free build slot. -/
def stW : EngineState := ⟨0, 1⟩

/-- The controller after one admission from `cW`. -/
def cW1 : BuildController := ⟨1, false⟩

/-- The entry `needsBuild` admits from `cW`/`stW`/`oracleW`. -/
def eW : buildEntry := ⟨"myapp", [], [], [], "manual", true, "build:1"⟩

/-- A controller whose private counter is ahead of `stW`. -/
def cAhead : BuildController := ⟨1, false⟩

/-- A store state with zero available build slots. -/
def stNoSlots : EngineState := ⟨0, 0⟩

/-- A local target whose `Validate` fails. -/
def tBad : LocalTarget := ⟨"t", some "boom"⟩

/-- A manifest deploying only the failing local target. -/
def mV : Manifest := ⟨"myapp", [], DeployTarget.localTgt tBad⟩

/-- A previously-built, un-crashed manifest state with no statuses. -/
def msV : ManifestState := ⟨true, none, false, [], []⟩

/-- An oracle candidate pairing `mV` with `msV`. -/
def mtV : ManifestTarget := ⟨mV, msV, "manual"⟩

/-- An oracle that always offers `mtV`. -/
def oracleV : EngineState → Option ManifestTarget := fun _ => some mtV

/-- The entry `needsBuild` admits from `cW`/`stW`/`oracleV`: its one
target is eligible, saw no change, and the force-update rule fires. -/
def eV : buildEntry :=
  ⟨"myapp", [TargetSpec.localTgt tBad],
    [(⟨TargetType.localTgt, "t"⟩, ⟨none, [], [], none, true⟩)],
    [], "manual", false, "build:1"⟩

/-- An image target for the crash-recovery fixture. -/
def itC3 : ImageTarget := ⟨"img", none⟩

/-- A Kubernetes manifest with one image target. -/
def mC3 : Manifest := ⟨"myapp", [itC3], DeployTarget.k8s ⟨"k", none⟩⟩

/-- A crash-flagged manifest state with zero pending file changes. -/
def msC3 : ManifestState := ⟨true, some 10, true, [], []⟩

/-- A manifest deploying one valid local target. -/
def mC2 : Manifest := ⟨"m", [], DeployTarget.localTgt ⟨"t", none⟩⟩

/-- A manifest state that never completed a build and has zero pending
file changes everywhere. -/
def msC2 : ManifestState := ⟨false, none, false, [], []⟩

/-- A manifest state previously built at time 10 whose local target has
one pending change at time 20. -/
def msC2w : ManifestState :=
  ⟨true, some 10, false, [],
    [(⟨TargetType.localTgt, "t"⟩, ⟨⟨[("a.go", 20)], by decide⟩, some "res"⟩)]⟩

/-- The single entry of the set assembled from `mC2` and `msC2w`. -/
def pC7 : TargetID × BuildState :=
  (⟨TargetType.localTgt, "t"⟩, ⟨some "res", ["a.go"], [], none, false⟩)

theorem BuildStateSet.keys_insert (s : BuildStateSet) (id : TargetID) (b : BuildState) :
    (BuildStateSet.insert s id b).map Prod.fst =
      if s.any (fun p => decide (p.1 = id)) then s.map Prod.fst
      else s.map Prod.fst ++ [id] := by
  unfold BuildStateSet.insert
  by_cases h : s.any (fun p => decide (p.1 = id))
  · rw [if_pos h, if_pos h, List.map_map]
    refine List.map_congr_left ?_
    intro p _
    by_cases hp : p.1 = id
    · simp [hp]
    · simp [hp]
  · rw [if_neg h, if_neg h, List.map_append]
    rfl

theorem BuildStateSet.mem_keys_insert (s : BuildStateSet) (id id' : TargetID) (b : BuildState) :
    id' ∈ (BuildStateSet.insert s id b).map Prod.fst ↔
      id' ∈ s.map Prod.fst ∨ id' = id := by
  rw [BuildStateSet.keys_insert]
  by_cases h : s.any (fun p => decide (p.1 = id))
  · rw [if_pos h]
    constructor
    · exact Or.inl
    · rintro (hm | rfl)
      · exact hm
      · rcases List.any_eq_true.mp h with ⟨p, hp, hpeq⟩
        exact List.mem_map.mpr ⟨p, hp, of_decide_eq_true hpeq⟩
  · rw [if_neg h]
    simp

theorem BuildStateSet.nodup_keys_insert (s : BuildStateSet) (id : TargetID) (b : BuildState)
    (h : (s.map Prod.fst).Nodup) :
    ((BuildStateSet.insert s id b).map Prod.fst).Nodup := by
  rw [BuildStateSet.keys_insert]
  by_cases ha : s.any (fun p => decide (p.1 = id))
  · rwa [if_pos ha]
  · rw [if_neg ha]
    rw [List.nodup_append]
    refine ⟨h, List.nodup_singleton id, ?_⟩
    intro x hx hxid
    rcases List.mem_map.mp hx with ⟨p, hp, rfl⟩
    rcases List.mem_singleton.mp hxid with rfl
    exact ha (List.any_eq_true.mpr ⟨p, hp, decide_eq_true rfl⟩)

theorem BuildStateSet.mem_insert (s : BuildStateSet) (id : TargetID) (b : BuildState)
    (p : TargetID × BuildState) (h : p ∈ BuildStateSet.insert s id b) :
    p.2 = b ∨ p ∈ s := by
  unfold BuildStateSet.insert at h
  by_cases ha : s.any (fun p => decide (p.1 = id))
  · rw [if_pos ha] at h
    rcases List.mem_map.mp h with ⟨q, hq, rfl⟩
    by_cases hq1 : q.1 = id
    · simp [hq1]
    · simp only [hq1, if_false]
      exact Or.inr hq
  · rw [if_neg ha] at h
    rcases List.mem_append.mp h with hm | hm
    · exact Or.inr hm
    · rcases List.mem_singleton.mp hm with rfl
      exact Or.inl rfl

theorem buildStateSetLoop_flag
    (k8sD : ImageTarget → ManifestState → Except String (List Container))
    (dcD : ManifestState → List Container)
    (m : Manifest) (ms : ManifestState) (specs : List TargetSpec) :
    ∀ (acc : BuildStateSet) (flag : Bool),
      (buildStateSetLoop k8sD dcD m ms specs acc flag).2 =
        (flag || anySpecSawChange ms specs) := by
  induction specs with
  | nil =>
    intro acc flag
    simp [buildStateSetLoop, anySpecSawChange]
  | cons s rest ih =>
    intro acc flag
    cases hb : targetEligible s.id with
    | true =>
      simp [buildStateSetLoop, hb, ih, anySpecSawChange, Bool.or_assoc]
    | false =>
      simp [buildStateSetLoop, hb, ih, anySpecSawChange]

theorem buildStateSetLoop_values {P : BuildState → Prop}
    (k8sD : ImageTarget → ManifestState → Except String (List Container))
    (dcD : ManifestState → List Container)
    (m : Manifest) (ms : ManifestState) (specs : List TargetSpec) :
    ∀ (acc : BuildStateSet) (flag : Bool),
      (∀ p ∈ acc, P p.2) →
      (∀ spec ∈ specs, targetEligible spec.id = true →
        P (specBuildState k8sD dcD m ms spec)) →
      ∀ p ∈ (buildStateSetLoop k8sD dcD m ms specs acc flag).1, P p.2 := by
  induction specs with
  | nil =>
    intro acc flag hacc _ p hp
    exact hacc p hp
  | cons s rest ih =>
    intro acc flag hacc hspecs p hp
    cases hb : targetEligible s.id with
    | true =>
      rw [buildStateSetLoop, hb, if_pos rfl] at hp
      refine ih _ _ ?_ ?_ p hp
      · intro q hq
        rcases BuildStateSet.mem_insert _ _ _ q hq with hq2 | hq2
        · rw [hq2]
          exact hspecs s (List.mem_cons_self s rest) hb
        · exact hacc q hq2
      · intro spec hspec helig
        exact hspecs spec (List.mem_cons_of_mem s hspec) helig
    | false =>
      rw [buildStateSetLoop, hb, if_neg Bool.false_ne_true] at hp
      refine ih _ _ hacc ?_ p hp
      intro spec hspec helig
      exact hspecs spec (List.mem_cons_of_mem s hspec) helig

theorem buildStateSetLoop_mem_keys
    (k8sD : ImageTarget → ManifestState → Except String (List Container))
    (dcD : ManifestState → List Container)
    (m : Manifest) (ms : ManifestState) (specs : List TargetSpec) :
    ∀ (acc : BuildStateSet) (flag : Bool) (id : TargetID),
      id ∈ (buildStateSetLoop k8sD dcD m ms specs acc flag).1.map Prod.fst ↔
        id ∈ acc.map Prod.fst ∨
          ∃ s ∈ specs, targetEligible s.id = true ∧ s.id = id := by
  induction specs with
  | nil =>
    intro acc flag id
    simp [buildStateSetLoop]
  | cons s rest ih =>
    intro acc flag id
    cases hb : targetEligible s.id with
    | true =>
      rw [buildStateSetLoop, hb, if_pos rfl]
      rw [ih]
      rw [BuildStateSet.mem_keys_insert]
      rw [List.exists_mem_cons_iff]
      simp only [hb, true_and]
      constructor
      · rintro ((hm | rfl) | hrest)
        · exact Or.inl hm
        · exact Or.inr (Or.inl rfl)
        · exact Or.inr (Or.inr hrest)
      · rintro (hm | rfl | hrest)
        · exact Or.inl (Or.inl hm)
        · exact Or.inl (Or.inr rfl)
        · exact Or.inr hrest
    | false =>
      rw [buildStateSetLoop, hb, if_neg Bool.false_ne_true]
      rw [ih]
      rw [List.exists_mem_cons_iff]
      simp [hb]

theorem buildStateSetLoop_keys_nodup
    (k8sD : ImageTarget → ManifestState → Except String (List Container))
    (dcD : ManifestState → List Container)
    (m : Manifest) (ms : ManifestState) (specs : List TargetSpec) :
    ∀ (acc : BuildStateSet) (flag : Bool),
      (acc.map Prod.fst).Nodup →
      ((buildStateSetLoop k8sD dcD m ms specs acc flag).1.map Prod.fst).Nodup := by
  induction specs with
  | nil =>
    intro acc flag h
    simpa [buildStateSetLoop] using h
  | cons s rest ih =>
    intro acc flag h
    cases hb : targetEligible s.id with
    | true =>
      rw [buildStateSetLoop, hb, if_pos rfl]
      exact ih _ _ (BuildStateSet.nodup_keys_insert _ _ _ h)
    | false =>
      rw [buildStateSetLoop, hb, if_neg Bool.false_ne_true]
      exact ih _ _ h

theorem attachRunningContainers_filesChanged
    (k8sD : ImageTarget → ManifestState → Except String (List Container))
    (dcD : ManifestState → List Container)
    (m : Manifest) (ms : ManifestState) (spec : TargetSpec) (bs : BuildState) :
    (attachRunningContainers k8sD dcD m ms spec bs).filesChanged = bs.filesChanged := by
  unfold attachRunningContainers
  cases hcr : ms.needsRebuildFromCrash <;> simp only [Bool.not_true, Bool.not_false, if_true,
    if_false, Bool.false_eq_true, if_pos rfl, if_neg Bool.false_ne_true]
  cases spec <;> simp only
  cases hk : m.IsK8s <;> cases hd : m.IsDC <;>
    simp only [if_pos rfl, if_neg Bool.false_ne_true] <;>
    first
      | rfl
      | (cases k8sD _ ms <;>
          simp [BuildState.WithRunningContainers, BuildState.WithRunningContainerError])

theorem attachRunningContainers_needsForceUpdate
    (k8sD : ImageTarget → ManifestState → Except String (List Container))
    (dcD : ManifestState → List Container)
    (m : Manifest) (ms : ManifestState) (spec : TargetSpec) (bs : BuildState) :
    (attachRunningContainers k8sD dcD m ms spec bs).needsForceUpdate =
      bs.needsForceUpdate := by
  unfold attachRunningContainers
  cases hcr : ms.needsRebuildFromCrash <;> simp only [Bool.not_true, Bool.not_false, if_true,
    if_false, Bool.false_eq_true, if_pos rfl, if_neg Bool.false_ne_true]
  cases spec <;> simp only
  cases hk : m.IsK8s <;> cases hd : m.IsDC <;>
    simp only [if_pos rfl, if_neg Bool.false_ne_true] <;>
    first
      | rfl
      | (cases k8sD _ ms <;>
          simp [BuildState.WithRunningContainers, BuildState.WithRunningContainerError])

theorem attachRunningContainers_lastSuccessfulResult
    (k8sD : ImageTarget → ManifestState → Except String (List Container))
    (dcD : ManifestState → List Container)
    (m : Manifest) (ms : ManifestState) (spec : TargetSpec) (bs : BuildState) :
    (attachRunningContainers k8sD dcD m ms spec bs).lastSuccessfulResult =
      bs.lastSuccessfulResult := by
  unfold attachRunningContainers
  cases hcr : ms.needsRebuildFromCrash <;> simp only [Bool.not_true, Bool.not_false, if_true,
    if_false, Bool.false_eq_true, if_pos rfl, if_neg Bool.false_ne_true]
  cases spec <;> simp only
  cases hk : m.IsK8s <;> cases hd : m.IsDC <;>
    simp only [if_pos rfl, if_neg Bool.false_ne_true] <;>
    first
      | rfl
      | (cases k8sD _ ms <;>
          simp [BuildState.WithRunningContainers, BuildState.WithRunningContainerError])

theorem attachRunningContainers_of_crash
    (k8sD : ImageTarget → ManifestState → Except String (List Container))
    (dcD : ManifestState → List Container)
    (m : Manifest) (ms : ManifestState) (spec : TargetSpec) (bs : BuildState)
    (h : ms.needsRebuildFromCrash = true) :
    attachRunningContainers k8sD dcD m ms spec bs = bs := by
  unfold attachRunningContainers
  rw [h]
  rfl

theorem buildStateSet_keys_eq_loop
    (k8sD : ImageTarget → ManifestState → Except String (List Container))
    (dcD : ManifestState → List Container)
    (m : Manifest) (specs : List TargetSpec) (ms : ManifestState) :
    (buildStateSet k8sD dcD m specs ms).map Prod.fst =
      (buildStateSetLoop k8sD dcD m ms specs [] false).1.map Prod.fst := by
  unfold buildStateSet
  by_cases h : (!ms.needsRebuildFromCrash && !(buildStateSetLoop k8sD dcD m ms specs [] false).2)
  · rw [if_pos h, List.map_map]
    rfl
  · rw [if_neg h]

/-- Claim C1: whenever the controller's internal started-build counter
differs from the store's externally visible started-build count,
`needsBuild` declines — it returns the empty `buildEntry` and `false`
and leaves the controller unchanged, for every selection oracle, every
discovery collaborator and every slot count (so neither the slot count
nor the oracle is consulted). -/
theorem needsBuild_count_mismatch
    (oracle : EngineState → Option ManifestTarget)
    (k8sD : ImageTarget → ManifestState → Except String (List Container))
    (dcD : ManifestState → List Container)
    (c : BuildController) (state : EngineState)
    (h : c.buildsStartedCount ≠ state.startedBuildCount) :
    needsBuild oracle k8sD dcD c state = (c, buildEntry.empty, false) := by
  unfold needsBuild
  rw [if_pos h]

/-- Witness for C1: a controller one admission ahead of the store
declines even though a slot is free and the oracle has a candidate. -/
theorem needsBuild_count_mismatch_witness :
    needsBuild oracleW k8s0 dc0 cAhead stW = (cAhead, buildEntry.empty, false) :=
  needsBuild_count_mismatch oracleW k8s0 dc0 cAhead stW (by decide)

/-- Claim C5: with the counters in sync but fewer than one available
build slot, `needsBuild` declines regardless of the selection oracle. -/
theorem needsBuild_no_slots
    (oracle : EngineState → Option ManifestTarget)
    (k8sD : ImageTarget → ManifestState → Except String (List Container))
    (dcD : ManifestState → List Container)
    (c : BuildController) (state : EngineState)
    (hsync : c.buildsStartedCount = state.startedBuildCount)
    (hslots : state.availableBuildSlots < 1) :
    needsBuild oracle k8sD dcD c state = (c, buildEntry.empty, false) := by
  unfold needsBuild
  rw [if_neg (by simp [hsync]), if_pos hslots]

/-- Witness for C5: zero slots decline an otherwise admittable build. -/
theorem needsBuild_no_slots_witness :
    needsBuild oracleW k8s0 dc0 cW stNoSlots = (cW, buildEntry.empty, false) :=
  needsBuild_no_slots oracleW k8s0 dc0 cW stNoSlots (by decide) (by decide)

/-- Claim C8: every admitted `buildEntry` carries the span identifier
`"build:" ++ N` where `N` is the controller's started-build counter
after the increment performed by that admission; consecutive admissions
therefore carry consecutive identifiers, the counter growing by exactly
one per admission. -/
theorem needsBuild_spanID
    (oracle : EngineState → Option ManifestTarget)
    (k8sD : ImageTarget → ManifestState → Except String (List Container))
    (dcD : ManifestState → List Container)
    (c : BuildController) (state : EngineState)
    (c1 : BuildController) (e : buildEntry)
    (h : needsBuild oracle k8sD dcD c state = (c1, e, true)) :
    c1.buildsStartedCount = c.buildsStartedCount + 1 ∧
    e.spanID = SpanIDForBuildLog c1.buildsStartedCount ∧
    e.spanID = "build:" ++ toString (c.buildsStartedCount + 1) := by
  unfold needsBuild at h
  by_cases h1 : c.buildsStartedCount ≠ state.startedBuildCount
  · rw [if_pos h1] at h
    simp at h
  · rw [if_neg h1] at h
    by_cases h2 : state.availableBuildSlots < 1
    · rw [if_pos h2] at h
      simp at h
    · rw [if_neg h2] at h
      cases ho : oracle state with
      | none =>
        rw [ho] at h
        simp at h
      | some mt =>
        rw [ho] at h
        dsimp only at h
        rw [Prod.ext_iff, Prod.ext_iff] at h
        obtain ⟨hc, he, -⟩ := h
        dsimp only at hc he
        rw [← hc, ← he]
        exact ⟨rfl, rfl, rfl⟩

/-- Witness for C8: one admission from a fresh controller yields span
identifier `"build:1"` and counter 1. -/
theorem needsBuild_spanID_witness :
    cW1.buildsStartedCount = cW.buildsStartedCount + 1 ∧
    eW.spanID = SpanIDForBuildLog cW1.buildsStartedCount ∧
    eW.spanID = "build:" ++ toString (cW.buildsStartedCount + 1) :=
  needsBuild_spanID oracleW k8s0 dc0 cW stW cW1 eW (by decide)

/-- Claim C10: `buildTargets` resolves a manifest to all its image
targets, in order, followed by at most one deploy target selected by the
first matching variant among DockerCompose, Kubernetes, Local; with no
matching variant only the image targets remain. -/
theorem buildTargets_resolution (m : Manifest) :
    buildTargets m = m.imageTargets.map TargetSpec.image ++
      (match m.deployTarget with
       | DeployTarget.dc t => [TargetSpec.dc t]
       | DeployTarget.k8s t => [TargetSpec.k8s t]
       | DeployTarget.localTgt t => [TargetSpec.localTgt t]
       | DeployTarget.noneT => []) := by
  cases h : m.deployTarget <;>
    simp [buildTargets, Manifest.IsDC, Manifest.IsK8s, Manifest.IsLocal,
      Manifest.dockerComposeTarget, Manifest.k8sTarget, Manifest.localTarget, h]

/-- Claim C6: for every manifest, spec list and manifest state, the key
set of the assembled `BuildStateSet` is exactly the set of identities of
the Image-, DockerCompose- and Local-typed specs of the input list, and
the keys are unique; specs of any other type contribute no entry. -/
theorem buildStateSet_keys
    (k8sD : ImageTarget → ManifestState → Except String (List Container))
    (dcD : ManifestState → List Container)
    (m : Manifest) (specs : List TargetSpec) (ms : ManifestState) :
    (∀ id : TargetID,
      id ∈ (buildStateSet k8sD dcD m specs ms).map Prod.fst ↔
        ∃ s ∈ specs, targetEligible s.id = true ∧ s.id = id) ∧
    ((buildStateSet k8sD dcD m specs ms).map Prod.fst).Nodup := by
  constructor
  · intro id
    rw [buildStateSet_keys_eq_loop, buildStateSetLoop_mem_keys]
    simp
  · rw [buildStateSet_keys_eq_loop]
    exact buildStateSetLoop_keys_nodup k8sD dcD m ms specs [] false (by simp)

/-- Claim C7: every build state in every assembled `BuildStateSet` has
its changed-file list sorted lexicographically ascending and free of
duplicates (the source's pending-change map keys files uniquely). -/
theorem buildStateSet_filesChanged_sorted
    (k8sD : ImageTarget → ManifestState → Except String (List Container))
    (dcD : ManifestState → List Container)
    (m : Manifest) (specs : List TargetSpec) (ms : ManifestState) :
    ∀ p ∈ buildStateSet k8sD dcD m specs ms,
      p.2.filesChanged.Sorted (fun a b => a ≤ b) ∧ p.2.filesChanged.Nodup := by
  intro p hp
  unfold buildStateSet at hp
  have key : ∀ q ∈ (buildStateSetLoop k8sD dcD m ms specs [] false).1,
      q.2.filesChanged.Sorted (fun a b => a ≤ b) ∧ q.2.filesChanged.Nodup := by
    refine buildStateSetLoop_values
      (P := fun bs => bs.filesChanged.Sorted (fun a b => a ≤ b) ∧ bs.filesChanged.Nodup)
      k8sD dcD m ms specs [] false ?_ ?_
    · intro q hq
      cases hq
    · intro spec _ _
      unfold specBuildState
      rw [attachRunningContainers_filesChanged]
      constructor
      · exact List.sorted_insertionSort _ _
      · exact ((List.perm_insertionSort _ _).symm.nodup
          (ms.buildStatus spec.id).pendingFileChanges.property)
  by_cases hc : (!ms.needsRebuildFromCrash &&
      !(buildStateSetLoop k8sD dcD m ms specs [] false).2)
  · rw [if_pos hc] at hp
    rcases List.mem_map.mp hp with ⟨q, hq, rfl⟩
    simpa [BuildState.WithNeedsForceUpdate] using key q hq
  · rw [if_neg hc] at hp
    exact key p hp

/-- Witness for C7: the concrete entry assembled from one pending change
has its changed-file list sorted and duplicate-free. -/
theorem buildStateSet_filesChanged_sorted_witness :
    pC7.2.filesChanged.Sorted (fun a b => a ≤ b) ∧ pC7.2.filesChanged.Nodup :=
  buildStateSet_filesChanged_sorted k8s0 dc0 mC2 (buildTargets mC2) msC2w pC7 (by decide)

/-- Claim C3: for every crash-flagged manifest state, for all manifests,
spec lists and discovery collaborators, no build state in the assembled
`BuildStateSet` carries running-container data, a running-container
error, or the force-update flag — even when zero files changed. -/
theorem buildStateSet_crash_clean
    (k8sD : ImageTarget → ManifestState → Except String (List Container))
    (dcD : ManifestState → List Container)
    (m : Manifest) (specs : List TargetSpec) (ms : ManifestState)
    (h : ms.needsRebuildFromCrash = true) :
    BuildStateSet.noContainerData (buildStateSet k8sD dcD m specs ms) = true := by
  unfold buildStateSet
  rw [h]
  rw [if_neg (by simp)]
  rw [BuildStateSet.noContainerData, List.all_eq_true]
  intro p hp
  have key : ∀ q ∈ (buildStateSetLoop k8sD dcD m ms specs [] false).1,
      q.2.runningContainers = [] ∧ q.2.runningContainerError = none ∧
        q.2.needsForceUpdate = false := by
    refine buildStateSetLoop_values
      (P := fun bs => bs.runningContainers = [] ∧ bs.runningContainerError = none ∧
        bs.needsForceUpdate = false)
      k8sD dcD m ms specs [] false ?_ ?_
    · intro q hq
      cases hq
    · intro spec _ _
      unfold specBuildState
      rw [attachRunningContainers_of_crash k8sD dcD m ms spec _ h]
      exact ⟨rfl, rfl, rfl⟩
  rcases key p hp with ⟨h1, h2, h3⟩
  simp [h1, h2, h3]

/-- Witness for C3: a crash-flagged Kubernetes manifest with one image
target and zero pending changes assembles with no container data, no
container error and no force flag, although the discovery collaborators
are reporting a live container. -/
theorem buildStateSet_crash_clean_witness :
    BuildStateSet.noContainerData
      (buildStateSet k8sOne dcOne mC3 (buildTargets mC3) msC3) = true :=
  buildStateSet_crash_clean k8sOne dcOne mC3 (buildTargets mC3) msC3 (by decide)

/-- Counterexample to claim C2 as stated: a manifest that is not
crash-flagged, has never completed a successful build, and has zero
pending file changes.  Under the claim's reading of "saw a change"
("… or when no successful build has ever completed"), its target saw a
change, so no build state should receive the force-rebuild flag; the
code nevertheless flags every build state, because the per-file loop
never runs when there are no pending changes. -/
theorem buildStateSet_forceUpdate_claim_counterexample :
    msC2.needsRebuildFromCrash = false ∧
    anySpecClaimSawChange msC2 (buildTargets mC2) = true ∧
    BuildStateSet.anyForce (buildStateSet k8s0 dc0 mC2 (buildTargets mC2) msC2) = true := by
  decide

/-- Claim C2 (amended): for every manifest state with
`NeedsRebuildFromCrash = false`, every build state of the assembled set
carries the force-update flag exactly when no processed target saw a
change — where a target saw a change exactly when some pending-change
timestamp is strictly after the last build's start time or no successful
build has ever completed, the latter counting only for targets with at
least one pending change. -/
theorem buildStateSet_forceUpdate_flags
    (k8sD : ImageTarget → ManifestState → Except String (List Container))
    (dcD : ManifestState → List Container)
    (m : Manifest) (specs : List TargetSpec) (ms : ManifestState)
    (h : ms.needsRebuildFromCrash = false) :
    BuildStateSet.forceFlagsAll (buildStateSet k8sD dcD m specs ms)
      (!anySpecSawChange ms specs) = true := by
  have hset : buildStateSet k8sD dcD m specs ms =
      (if (!ms.needsRebuildFromCrash &&
          !(buildStateSetLoop k8sD dcD m ms specs [] false).2) then
        (buildStateSetLoop k8sD dcD m ms specs [] false).1.map
          (fun p => (p.1, p.2.WithNeedsForceUpdate true))
      else (buildStateSetLoop k8sD dcD m ms specs [] false).1) := rfl
  rw [hset, h, buildStateSetLoop_flag k8sD dcD m ms specs [] false]
  simp only [Bool.not_false, Bool.true_and, Bool.false_or]
  cases hs : anySpecSawChange ms specs with
  | false =>
    simp only [Bool.not_false]
    rw [if_pos trivial]
    rw [BuildStateSet.forceFlagsAll, List.all_eq_true]
    intro p hp
    rcases List.mem_map.mp hp with ⟨q, _, rfl⟩
    simp [BuildState.WithNeedsForceUpdate]
  | true =>
    simp only [Bool.not_true]
    rw [if_neg Bool.false_ne_true]
    rw [BuildStateSet.forceFlagsAll, List.all_eq_true]
    intro p hp
    have key : ∀ q ∈ (buildStateSetLoop k8sD dcD m ms specs [] false).1,
        q.2.needsForceUpdate = false := by
      refine buildStateSetLoop_values
        (P := fun bs => bs.needsForceUpdate = false)
        k8sD dcD m ms specs [] false ?_ ?_
      · intro q hq
        cases hq
      · intro spec _ _
        unfold specBuildState
        rw [attachRunningContainers_needsForceUpdate]
        rfl
    simp [key p hp]

/-- Witness for the amended C2: an un-crashed state with one pending
change newer than the last build has a target that saw a change, and
indeed no build state of the assembled set carries the force flag. -/
theorem buildStateSet_forceUpdate_flags_witness :
    BuildStateSet.forceFlagsAll (buildStateSet k8s0 dc0 mC2 (buildTargets mC2) msC2w)
      (!anySpecSawChange msC2w (buildTargets mC2)) = true :=
  buildStateSet_forceUpdate_flags k8s0 dc0 mC2 (buildTargets mC2) msC2w (by decide)

/-- Claim C4: when an admitted entry contains a target spec failing
validation, `buildAndDeploy` returns the empty result set with the first
validation error without invoking the engine, and `OnChange` dispatches
the "build started" action followed by a "build completed" action
carrying that error and the empty result set — for every build engine,
which is therefore never invoked. -/
theorem onChange_validation_failure
    (engine : List TargetSpec → BuildStateSet → BuildResultSet × Option String)
    (oracle : EngineState → Option ManifestTarget)
    (k8sD : ImageTarget → ManifestState → Except String (List Container))
    (dcD : ManifestState → List Container)
    (c c1 : BuildController) (state : EngineState) (e : buildEntry) (err : String)
    (hd : c.disabledForTesting = false)
    (h : needsBuild oracle k8sD dcD c state = (c1, e, true))
    (hv : firstValidationError e.targets = some err) :
    buildAndDeploy engine e = ([], some err) ∧
    OnChange engine oracle k8sD dcD c state =
      (c1, [StoreAction.buildStarted e.name e.filesChanged e.buildReason e.spanID,
            StoreAction.buildComplete e.name e.spanID [] (some err)]) := by
  have hb : buildAndDeploy engine e = ([], some err) := by
    unfold buildAndDeploy
    rw [hv]
  refine ⟨hb, ?_⟩
  unfold OnChange
  rw [hd, if_neg Bool.false_ne_true, h]
  simp [hb]

/-- Witness for C4: a manifest whose only target fails validation with
"boom" completes with that error and an empty result set, and the
dispatched actions are exactly "build started" then "build completed". -/
theorem onChange_validation_failure_witness :
    buildAndDeploy engine0 eV = ([], some "boom") ∧
    OnChange engine0 oracleV k8s0 dc0 cW stW =
      (cW1, [StoreAction.buildStarted eV.name eV.filesChanged eV.buildReason eV.spanID,
             StoreAction.buildComplete eV.name eV.spanID [] (some "boom")]) :=
  onChange_validation_failure engine0 oracleV k8s0 dc0 cW cW1 stW eV "boom"
    (by decide) (by decide) (by decide)

/-- Claim C9: for every admitted build entry, the single summary log
line is "Initial Build • name" on a first build; otherwise
"N File(s) Changed: list • name" when N files changed; otherwise
"reason • name". -/
theorem logBuildEntry_format
    (formatFileChangeList : List String → String)
    (oracle : EngineState → Option ManifestTarget)
    (k8sD : ImageTarget → ManifestState → Except String (List Container))
    (dcD : ManifestState → List Container)
    (c c1 : BuildController) (state : EngineState) (e : buildEntry)
    (_h : needsBuild oracle k8sD dcD c state = (c1, e, true)) :
    logBuildEntry formatFileChangeList e =
      if e.firstBuild then "Initial Build • " ++ e.name
      else if e.filesChanged.length > 0 then
        toString e.filesChanged.length ++ " " ++
          (if e.filesChanged.length > 1 then "Files" else "File") ++ " Changed: " ++
          formatFileChangeList e.filesChanged ++ " • " ++ e.name
      else e.buildReason ++ " • " ++ e.name := by
  unfold logBuildEntry
  cases hf : e.firstBuild with
  | true =>
    rw [if_pos rfl, if_pos rfl]
    rw [show ("Initial Build • " : String) = "Initial Build " ++ "•" ++ " " from by decide]
  | false =>
    rw [if_neg Bool.false_ne_true, if_neg Bool.false_ne_true]
    by_cases hl : e.filesChanged.length > 0
    · rw [if_pos hl, if_pos hl]
      rw [show (" • " : String) = " " ++ "•" ++ " " from by decide]
      by_cases hl1 : e.filesChanged.length > 1
      · rw [if_pos hl1]
        simp [String.append_assoc]
      · rw [if_neg hl1]
        simp [String.append_assoc]
    · rw [if_neg hl, if_neg hl]
      rw [show (" • " : String) = " " ++ "•" ++ " " from by decide]
      simp [String.append_assoc]

/-- Witness for C9: the admitted first build of `mW` logs exactly
"Initial Build • myapp". -/
theorem logBuildEntry_format_witness :
    logBuildEntry fmtComma eW =
      if eW.firstBuild then "Initial Build • " ++ eW.name
      else if eW.filesChanged.length > 0 then
        toString eW.filesChanged.length ++ " " ++
          (if eW.filesChanged.length > 1 then "Files" else "File") ++ " Changed: " ++
          fmtComma eW.filesChanged ++ " • " ++ eW.name
      else eW.buildReason ++ " • " ++ eW.name :=
  logBuildEntry_format fmtComma oracleW k8s0 dc0 cW cW1 stW eW (by decide)
